import Mathlib

/-!
Verification of the mikan_order point-of-sale repository: a shallow
embedding of its pricing engine (four observed revisions of
`calculateSubtotal` / `calculateTax` / `calculateTotal` in the client
order store), of the in-memory `MemStorage` order store, and of the
order routes, together with theorems settling the specification claims.

Monetary values are integers in minor currency units (the code stores
yen times 100), quantities are numbers.  JavaScript `Map`s are modelled
as insertion-ordered association lists whose `set` replaces an existing
key in place and otherwise appends, matching `Map` iteration semantics.
-/

namespace MikanOrder

/-- Order status, from `OrderStatus = z.enum(["new", "in-progress", "ready"])`
in `shared/schema.ts`. -/
inductive OrderStatus where
  | new
  | inProgress
  | ready
deriving DecidableEq, Repr

/-- A menu catalog entry, from the `menuItems` table in `shared/schema.ts`:
numeric id, display name, unit price in minor units, image reference and a
free-text category tag used by the pricing branches. -/
structure MenuItem where
  id : Nat
  name : String
  price : Nat
  imageUrl : String
  category : String
deriving DecidableEq, Repr

/-- A client-side cart entry (`CartItem` in the order store files): a menu
item together with a quantity. -/
structure CartItem where
  menuItem : MenuItem
  quantity : Nat
deriving DecidableEq, Repr

/-- `cartItems.reduce((total, item) => total + item.quantity, 0)` — the pooled
drink count used by the flat-rate and pooled-discount revisions. -/
def cartTotalQuantity (cartItems : List CartItem) : Nat :=
  cartItems.foldl (fun total item => total + item.quantity) 0

/-- The alcoholic-drink count
`reduce((t, i) => t + (i.menuItem.category === "お酒" ? i.quantity : 0), 0)`
from the per-category revision of `calculateSubtotal`. -/
def cartAlcoholQuantity (cartItems : List CartItem) : Nat :=
  cartItems.foldl
    (fun total item =>
      total + (if item.menuItem.category = "お酒" then item.quantity else 0)) 0

/-- The soft-drink count
`reduce((t, i) => t + (i.menuItem.category === "ソフトドリンク" ? i.quantity : 0), 0)`
shared by the per-category and pooled-discount revisions. -/
def cartSoftQuantity (cartItems : List CartItem) : Nat :=
  cartItems.foldl
    (fun total item =>
      total + (if item.menuItem.category = "ソフトドリンク" then item.quantity else 0)) 0

/-- Flat-rate revision of `calculateSubtotal` (client order store, first
revision): all cart quantities are pooled into one drink count, priced as
`floor(n/3)` three-drink bundles at 150000 plus a remainder price
(one drink 70000, two drinks 120000). -/
def flatCalculateSubtotal (cartItems : List CartItem) : Nat :=
  let totalDrinks := cartTotalQuantity cartItems
  let fullSets := totalDrinks / 3
  let remainder := totalDrinks % 3
  let price := fullSets * 150000
  let price :=
    if remainder = 1 then price + 70000
    else if remainder = 2 then price + 120000
    else price
  price

/-- Flat-rate revision of `calculateTax`: consumption tax is ignored. -/
def flatCalculateTax (_cartItems : List CartItem) : Nat := 0

/-- Flat-rate revision of `calculateTotal`: equal to the subtotal since tax
is ignored. -/
def flatCalculateTotal (cartItems : List CartItem) : Nat :=
  flatCalculateSubtotal cartItems

/-- The count-level kernel of the flat-rate tier table: price for a pooled
count of `n` drinks (bundle 150000 per 3, remainders 70000 / 120000). -/
def flatPriceOfCount (n : Nat) : Nat :=
  n / 3 * 150000 + (if n % 3 = 1 then 70000 else if n % 3 = 2 then 120000 else 0)

/-- The count-level soft-drink tier table of the per-category revision:
bundle 90000 per 3 (1500 yen less 200 yen × 3), remainders 50000 / 80000. -/
def softPriceOfCount (n : Nat) : Nat :=
  n / 3 * 90000 + (if n % 3 = 1 then 50000 else if n % 3 = 2 then 80000 else 0)

/-- Per-category revision of `calculateSubtotal` (client order store):
alcoholic and soft drinks are counted as two separate populations, the
alcoholic count priced by the 150000 / 70000 / 120000 table and the soft
count by the per-unit-discounted 90000 / 50000 / 80000 table, summed. -/
def perCatCalculateSubtotal (cartItems : List CartItem) : Nat :=
  let alcoholDrinks := cartAlcoholQuantity cartItems
  let softDrinks := cartSoftQuantity cartItems
  let alcoholFullSets := alcoholDrinks / 3
  let alcoholRemainder := alcoholDrinks % 3
  let price := alcoholFullSets * 150000
  let price :=
    if alcoholRemainder = 1 then price + 70000
    else if alcoholRemainder = 2 then price + 120000
    else price
  let softDrinkFullSets := softDrinks / 3
  let softDrinkRemainder := softDrinks % 3
  let price := price + softDrinkFullSets * 90000
  let price :=
    if softDrinkRemainder = 1 then price + 50000
    else if softDrinkRemainder = 2 then price + 80000
    else price
  price

/-- Pooled-with-discount revision of `calculateSubtotal` (client order
store, later revision): the flat-rate price of the pooled count, minus
20000 per soft drink, floored at zero by `Math.max(0, price - discount)`. -/
def pooledCalculateSubtotal (cartItems : List CartItem) : Int :=
  let totalDrinks := cartTotalQuantity cartItems
  let softDrinks := cartSoftQuantity cartItems
  let fullSets := totalDrinks / 3
  let remainder := totalDrinks % 3
  let price := fullSets * 150000
  let price :=
    if remainder = 1 then price + 70000
    else if remainder = 2 then price + 120000
    else price
  let discount := softDrinks * 20000
  max 0 ((price : Int) - (discount : Int))

/-- Count-level form of the pooled-with-discount price: flat tier price of
the pooled count `total` minus 20000 per soft drink, floored at zero. -/
def pooledPriceOfCounts (total soft : Nat) : Int :=
  max 0 ((flatPriceOfCount total : Int) - (soft : Int) * 20000)

/-- Literal line-item revision of `calculateSubtotal`:
`reduce((total, item) => total + item.menuItem.price * item.quantity, 0)`. -/
def literalCalculateSubtotal (cartItems : List CartItem) : Nat :=
  cartItems.foldl (fun total item => total + item.menuItem.price * item.quantity) 0

/-- Literal line-item revision of `calculateTax`:
`Math.round(subtotal * 0.1)`.  For a natural-number subtotal in the
integer range money occupies, the double computation `subtotal * 0.1`
never falls below an exact half boundary (the stored double for `0.1`
exceeds 1/10), so `Math.round` — which rounds halves toward positive
infinity — yields exactly `(subtotal + 5) / 10` in integer arithmetic. -/
def literalCalculateTax (cartItems : List CartItem) : Nat :=
  (literalCalculateSubtotal cartItems + 5) / 10

/-- Literal line-item revision of `calculateTotal`: subtotal plus tax. -/
def literalCalculateTotal (cartItems : List CartItem) : Nat :=
  literalCalculateSubtotal cartItems + literalCalculateTax cartItems

/-- A persisted order row (`orders` table in `shared/schema.ts`).
Timestamps are modelled as natural-number instants; `totalAmount` is an
integer column and therefore modelled as `Int`. -/
structure Order where
  id : Nat
  orderNumber : String
  status : OrderStatus
  createdAt : Nat
  updatedAt : Nat
  totalAmount : Int
deriving DecidableEq, Repr

/-- A persisted order line (`orderItems` table): owning order id, menu item
reference, quantity and a unit-price snapshot.  `quantity` and `price` are
integer columns, not validated at create time, hence `Int`. -/
structure OrderItem where
  id : Nat
  orderId : Nat
  menuItemId : Nat
  quantity : Int
  price : Int
deriving DecidableEq, Repr

/-- A `{ menuItemId, quantity }` line of a PATCH order edit request, as
validated by `updateOrderSchema` in the edit route. -/
structure UpdateItemsEntry where
  menuItemId : Nat
  quantity : Int
deriving DecidableEq, Repr

/-- A line of a POST create-order request body: the client also sends a
per-line `price`. -/
structure CreateOrderItemReq where
  menuItemId : Nat
  quantity : Int
  price : Int
deriving DecidableEq, Repr

/-- A POST create-order request body after `insertOrderSchema` parsing:
an optional order number and a client-computed `totalAmount`, plus the
raw item lines the handler reads from `req.body.items`. -/
structure CreateOrderReq where
  orderNumber : Option String
  totalAmount : Int
  items : List CreateOrderItemReq
deriving DecidableEq, Repr

/-- The `MemStorage` state from `server/storage.ts`: three JavaScript
`Map`s (modelled as insertion-ordered association lists) and four
monotonic id counters. -/
structure MemStorage where
  menuItems : List (Nat × MenuItem)
  orders : List (Nat × Order)
  orderItems : List (Nat × OrderItem)
  menuItemIdCounter : Nat
  orderIdCounter : Nat
  orderItemIdCounter : Nat
  orderNumberCounter : Nat
deriving DecidableEq, Repr

/-- JavaScript `Map.prototype.set` on an insertion-ordered association
list: replace the value in place when the key is present, append
otherwise. -/
def mapSet {α : Type} (m : List (Nat × α)) (k : Nat) (v : α) : List (Nat × α) :=
  if m.any (fun p => p.1 = k) then
    m.map (fun p => if p.1 = k then (k, v) else p)
  else m ++ [(k, v)]

/-- JavaScript `Map.prototype.get`: first entry with the key, if any. -/
def mapGet {α : Type} (m : List (Nat × α)) (k : Nat) : Option α :=
  (m.find? (fun p => p.1 = k)).map Prod.snd

/-- `getMenuItemById` from `MemStorage`. -/
def getMenuItemById (s : MemStorage) (id : Nat) : Option MenuItem :=
  mapGet s.menuItems id

/-- `createMenuItem` from `MemStorage`: assigns the next menu item id. -/
def createMenuItem (s : MemStorage) (name : String) (price : Nat)
    (imageUrl category : String) : MenuItem × MemStorage :=
  let id := s.menuItemIdCounter
  let newItem : MenuItem :=
    { id := id, name := name, price := price, imageUrl := imageUrl, category := category }
  (newItem,
    { s with menuItems := mapSet s.menuItems id newItem, menuItemIdCounter := id + 1 })

/-- `getOrderById` from `MemStorage`. -/
def getOrderById (s : MemStorage) (id : Nat) : Option Order :=
  mapGet s.orders id

/-- `createOrder` from `MemStorage` (the revision whose initial status is
`"in-progress"`): assigns the next order id, falls back to a
counter-generated order number when the request does not carry one, and
stores the supplied `totalAmount` unchanged. -/
def createOrder (s : MemStorage) (orderNumberOpt : Option String)
    (totalAmount : Int) (now : Nat) : Order × MemStorage :=
  let id := s.orderIdCounter
  match orderNumberOpt with
  | some n =>
    let order : Order :=
      { id := id, orderNumber := n, status := OrderStatus.inProgress,
        createdAt := now, updatedAt := now, totalAmount := totalAmount }
    (order, { s with orders := mapSet s.orders id order, orderIdCounter := id + 1 })
  | none =>
    let orderNumber := "#" ++ toString s.orderNumberCounter
    let order : Order :=
      { id := id, orderNumber := orderNumber, status := OrderStatus.inProgress,
        createdAt := now, updatedAt := now, totalAmount := totalAmount }
    (order, { s with orders := mapSet s.orders id order,
                     orderIdCounter := id + 1,
                     orderNumberCounter := s.orderNumberCounter + 1 })

/-- `updateOrderStatus` from `MemStorage`: looks the order up, and when
present stores a copy whose `status` and `updatedAt` are replaced. -/
def updateOrderStatus (s : MemStorage) (id : Nat) (status : OrderStatus)
    (now : Nat) : Option Order × MemStorage :=
  match getOrderById s id with
  | none => (none, s)
  | some order =>
    let updatedOrder := { order with status := status, updatedAt := now }
    (some updatedOrder, { s with orders := mapSet s.orders id updatedOrder })

/-- `getOrderItemsByOrderId` from `MemStorage`: all item rows whose
`orderId` equals the argument, in map iteration order. -/
def getOrderItemsByOrderId (s : MemStorage) (orderId : Nat) : List OrderItem :=
  (s.orderItems.map Prod.snd).filter (fun item => item.orderId = orderId)

/-- `createOrderItem` from `MemStorage`: assigns the next order item id. -/
def createOrderItem (s : MemStorage) (orderId menuItemId : Nat)
    (quantity price : Int) : OrderItem × MemStorage :=
  let id := s.orderItemIdCounter
  let orderItem : OrderItem :=
    { id := id, orderId := orderId, menuItemId := menuItemId,
      quantity := quantity, price := price }
  (orderItem,
    { s with orderItems := mapSet s.orderItems id orderItem,
             orderItemIdCounter := id + 1 })

/-- `deleteOrderItemsByOrderId` from `MemStorage`: keeps (in iteration
order, with their existing ids) exactly the entries whose item does not
belong to the given order — the code filters the entries, clears the map
and re-adds the kept entries — and returns `true` unconditionally. -/
def deleteOrderItemsByOrderId (s : MemStorage) (orderId : Nat) :
    Bool × MemStorage :=
  let itemsToKeep := s.orderItems.filter (fun p => p.2.orderId ≠ orderId)
  (true, { s with orderItems := itemsToKeep })

/-- `getOrderWithItems` from `MemStorage`: the order joined with its item
rows, each resolved against the menu catalog (`menuItem!` in the source
is `undefined` on a dangling reference, modelled as `Option`). -/
def getOrderWithItems (s : MemStorage) (orderId : Nat) :
    Option (Order × List (OrderItem × Option MenuItem)) :=
  match getOrderById s orderId with
  | none => none
  | some order =>
    let orderItems := getOrderItemsByOrderId s orderId
    some (order, orderItems.map (fun item => (item, getMenuItemById s item.menuItemId)))

/-- The total-amount computation inlined in `updateOrderWithItems`
(storage.ts, pooled-discount revision): pooled drink count priced by the
flat tier table — `Math.floor` and JavaScript `%` on the (possibly
unvalidated) integer count — minus 20000 per line resolving to a
soft-drink menu item, floored at zero. -/
def serverCalcTotalAmount (s : MemStorage) (items : List UpdateItemsEntry) : Int :=
  let totalDrinks := items.foldl (fun total item => total + item.quantity) 0
  let softDrinks := items.foldl
    (fun total item =>
      total +
        (match getMenuItemById s item.menuItemId with
         | some m => if m.category = "ソフトドリンク" then item.quantity else 0
         | none => 0)) 0
  let fullSets := Int.fdiv totalDrinks 3
  let remainder := Int.tmod totalDrinks 3
  let price := fullSets * 150000
  let price :=
    if remainder = 1 then price + 70000
    else if remainder = 2 then price + 120000
    else price
  let discount := softDrinks * 20000
  max 0 (price - discount)

/-- `updateOrderWithItems` from `MemStorage`: `undefined` when the order id
is absent; otherwise recomputes the total from the replacement lines,
stores the order with the supplied number and status, deletes the old
item rows of this order, creates the replacement rows (with price
snapshot 0) and returns the joined result. -/
def updateOrderWithItems (s : MemStorage) (id : Nat) (orderNumber : String)
    (status : OrderStatus) (items : List UpdateItemsEntry) (now : Nat) :
    Option (Order × List (OrderItem × Option MenuItem)) × MemStorage :=
  match getOrderById s id with
  | none => (none, s)
  | some existingOrder =>
    let totalAmount := serverCalcTotalAmount s items
    let updatedOrder :=
      { existingOrder with
          orderNumber := orderNumber, status := status,
          totalAmount := totalAmount, updatedAt := now }
    let s1 := { s with orders := mapSet s.orders id updatedOrder }
    let s2 := (deleteOrderItemsByOrderId s1 id).2
    let s3 := items.foldl
      (fun st item => (createOrderItem st id item.menuItemId item.quantity 0).2) s2
    (getOrderWithItems s3 id, s3)

/-- The POST `/api/orders` handler: creates the order from the parsed body
(which carries the client's `totalAmount`), then creates an item row per
body line (carrying the client's per-line `price`), and returns the
joined order. -/
def postOrders (s : MemStorage) (body : CreateOrderReq) (now : Nat) :
    Option (Order × List (OrderItem × Option MenuItem)) × MemStorage :=
  let created := createOrder s body.orderNumber body.totalAmount now
  let s1 := body.items.foldl
    (fun st item =>
      (createOrderItem st created.1.id item.menuItemId item.quantity item.price).2) created.2
  (getOrderWithItems s1 created.1.id, s1)

/-- Result of the PATCH `/api/orders/:id` edit route: a 200 with the joined
order, a 400 on schema validation failure, or a 404. -/
inductive EditResult where
  | ok (order : Order) (items : List (OrderItem × Option MenuItem))
  | badRequest
  | notFound
deriving DecidableEq, Repr

/-- Whether an edit attempt succeeded. -/
def EditResult.isOk : EditResult → Bool
  | .ok _ _ => true
  | _ => false

/-- The PATCH `/api/orders/:id` handler: `updateOrderSchema` requires every
line quantity to be positive (`z.number().positive()`), then the storage
update runs; an absent order id reports not-found.  No other validation
is performed. -/
def patchOrder (s : MemStorage) (id : Nat) (orderNumber : String)
    (status : OrderStatus) (items : List UpdateItemsEntry) (now : Nat) :
    EditResult × MemStorage :=
  if items.all (fun i => 0 < i.quantity) then
    match updateOrderWithItems s id orderNumber status items now with
    | (none, s') => (.notFound, s')
    | (some (o, its), s') => (.ok o its, s')
  else (.badRequest, s)

/-- The order item rows (with their map keys) that the replacement loop of
`updateOrderWithItems` creates: one row per request line, ids counting up
from `c`, all owned by order `oid`, price snapshot 0. -/
def newItemsFrom (c oid : Nat) : List UpdateItemsEntry → List (Nat × OrderItem)
  | [] => []
  | b :: bs =>
    (c, { id := c, orderId := oid, menuItemId := b.menuItemId,
          quantity := b.quantity, price := 0 }) :: newItemsFrom (c + 1) oid bs

/-- The replacement order row written by `updateOrderWithItems`: the
existing row with order number, status, total amount and update instant
replaced. -/
def updatedOrderFor (o : Order) (num : String) (status : OrderStatus)
    (total : Int) (now : Nat) : Order :=
  { o with orderNumber := num, status := status, totalAmount := total, updatedAt := now }

/-- The empty `MemStorage` as built by the constructor, before seeding. -/
def emptyStorage : MemStorage :=
  { menuItems := [], orders := [], orderItems := [],
    menuItemIdCounter := 1, orderIdCounter := 1, orderItemIdCounter := 1,
    orderNumberCounter := 1000 }

/-- The default menu seeded by the constructor (drink-menu revision):
name, price, image reference, category. -/
def defaultSeedItems : List (String × Nat × String × String) :=
  [("日本酒みかんロック", 75000, "", "お酒"),
   ("太幸ワイン", 80000, "", "お酒"),
   ("太幸ワインサングリア", 85000, "", "お酒"),
   ("ブラッドオレンジ梅酒", 78000, "", "お酒"),
   ("カシス河内晩柑", 78000, "", "お酒"),
   ("レモン酎ハイ", 70000, "", "お酒"),
   ("河内晩柑ジュース", 55000, "", "ソフトドリンク")]

/-- The storage state right after construction: the seven default drinks
created in order, ids 1 through 7. -/
def initialStorage : MemStorage :=
  defaultSeedItems.foldl
    (fun st it => (createMenuItem st it.1 it.2.1 it.2.2.1 it.2.2.2).2) emptyStorage

/-! ### Concrete sample inputs used to instantiate the theorems -/

/-- A sample alcoholic menu item (seed item 1). -/
def sampleAlcohol : MenuItem :=
  { id := 1, name := "日本酒みかんロック", price := 75000, imageUrl := "", category := "お酒" }

/-- A sample soft-drink menu item (seed item 7). -/
def sampleSoft : MenuItem :=
  { id := 7, name := "河内晩柑ジュース", price := 55000, imageUrl := "", category := "ソフトドリンク" }

/-- A sample four-drink cart. -/
def sampleCart4 : List CartItem := [⟨sampleAlcohol, 4⟩]

/-- A sample cart whose literal-mode subtotal of 15 sits exactly on the
rounding half boundary (15 / 10 = 1.5). -/
def sampleCartHalf : List CartItem :=
  [⟨{ id := 9, name := "テスト", price := 15, imageUrl := "", category := "main" }, 1⟩]

/-- A create-order request whose client-computed total (99900000) disagrees
with the pricing engine's price of its single soft-drink line (50000). -/
def sampleBadTotalReq : CreateOrderReq :=
  { orderNumber := some "#1234", totalAmount := 99900000, items := [⟨7, 1, 55000⟩] }

/-- A server state holding one just-created order (id 1, order number
"#1001", status in-progress, two item rows with ids 1 and 2). -/
def demoState : MemStorage :=
  (postOrders initialStorage
    { orderNumber := some "#1001", totalAmount := 120000, items := [⟨1, 2, 0⟩, ⟨7, 1, 0⟩] } 3).2

/-- The order row stored in `demoState`. -/
def demoOrder : Order :=
  { id := 1, orderNumber := "#1001", status := OrderStatus.inProgress,
    createdAt := 3, updatedAt := 3, totalAmount := 120000 }

/-- `demoState` after the kitchen marks order 1 as ready (terminal state). -/
def readyState : MemStorage :=
  (updateOrderStatus demoState 1 OrderStatus.ready 4).2

/-- A sample replacement item list: two soft drinks. -/
def sampleB : List UpdateItemsEntry := [⟨7, 2⟩]

/-! ### Association-list lemmas for the JavaScript `Map` model -/

theorem find?_map_replace {α : Type} (m : List (Nat × α)) (k : Nat) (v : α)
    (h : m.any (fun p => p.1 = k) = true) :
    (m.map (fun p => if p.1 = k then (k, v) else p)).find? (fun p => p.1 = k)
      = some (k, v) := by
  induction m with
  | nil => simp at h
  | cons hd tl ih =>
    by_cases hh : hd.1 = k
    · simp [hh]
    · have h' : tl.any (fun p => p.1 = k) = true := by
        simp only [List.any_cons, Bool.or_eq_true, decide_eq_true_eq] at h
        rcases h with h | h
        · exact absurd h hh
        · exact h
      simp [hh, ih h']

theorem find?_append_fresh {α : Type} (m : List (Nat × α)) (k : Nat) (v : α)
    (h : m.any (fun p => p.1 = k) = false) :
    (m ++ [(k, v)]).find? (fun p => p.1 = k) = some (k, v) := by
  rw [List.find?_append]
  have hnone : m.find? (fun p => p.1 = k) = none := by
    rw [List.find?_eq_none]
    intro x hx
    simp only [List.any_eq_false, decide_eq_true_eq] at h
    simpa using h x hx
  simp [hnone]

theorem mapGet_mapSet_same {α : Type} (m : List (Nat × α)) (k : Nat) (v : α) :
    mapGet (mapSet m k v) k = some v := by
  unfold mapGet mapSet
  cases h : m.any (fun p => p.1 = k) with
  | true => simp [find?_map_replace m k v h]
  | false => simp [h, find?_append_fresh m k v h]

theorem find?_map_replace_ne {α : Type} (m : List (Nat × α)) (k k' : Nat) (v : α)
    (hne : k' ≠ k) :
    (m.map (fun p => if p.1 = k then (k, v) else p)).find? (fun p => p.1 = k')
      = m.find? (fun p => p.1 = k') := by
  have hkk' : ¬ (k = k') := fun h => hne h.symm
  induction m with
  | nil => rfl
  | cons hd tl ih =>
    rw [List.map_cons]
    by_cases hh : hd.1 = k
    · have h2 : ¬ (hd.1 = k') := by rw [hh]; exact hkk'
      rw [if_pos hh, List.find?_cons_of_neg _ (by simpa using hkk'),
          List.find?_cons_of_neg _ (by simpa using h2), ih]
    · rw [if_neg hh]
      by_cases hh' : hd.1 = k'
      · rw [List.find?_cons_of_pos _ (by simpa using hh'),
            List.find?_cons_of_pos _ (by simpa using hh')]
      · rw [List.find?_cons_of_neg _ (by simpa using hh'),
            List.find?_cons_of_neg _ (by simpa using hh'), ih]

theorem mapGet_mapSet_ne {α : Type} (m : List (Nat × α)) (k k' : Nat) (v : α)
    (hne : k' ≠ k) : mapGet (mapSet m k v) k' = mapGet m k' := by
  unfold mapGet mapSet
  cases h : m.any (fun p => p.1 = k) with
  | true => simp [find?_map_replace_ne m k k' v hne]
  | false =>
    simp only [h, Bool.false_eq_true, if_false, List.find?_append]
    have hkk' : ¬ (k = k') := fun h => hne h.symm
    have hnone : ([(k, v)] : List (Nat × α)).find? (fun p => p.1 = k') = none := by
      simp [hkk']
    rw [hnone]
    cases m.find? (fun p => p.1 = k') <;> rfl

theorem mapSet_of_fresh {α : Type} (m : List (Nat × α)) (k : Nat) (v : α)
    (h : ∀ p ∈ m, p.1 ≠ k) : mapSet m k v = m ++ [(k, v)] := by
  unfold mapSet
  have hany : m.any (fun p => p.1 = k) = false := by
    simp only [List.any_eq_false, decide_eq_true_eq]
    exact h
  simp [hany]

/-! ### Pricing-kernel lemmas -/

theorem flatCalculateSubtotal_eq (cart : List CartItem) :
    flatCalculateSubtotal cart = flatPriceOfCount (cartTotalQuantity cart) := by
  simp only [flatCalculateSubtotal, flatPriceOfCount]
  split_ifs <;> omega

theorem perCatCalculateSubtotal_eq (cart : List CartItem) :
    perCatCalculateSubtotal cart
      = flatPriceOfCount (cartAlcoholQuantity cart)
        + softPriceOfCount (cartSoftQuantity cart) := by
  simp only [perCatCalculateSubtotal, flatPriceOfCount, softPriceOfCount]
  split_ifs <;> omega

theorem pooledCalculateSubtotal_eq (cart : List CartItem) :
    pooledCalculateSubtotal cart
      = pooledPriceOfCounts (cartTotalQuantity cart) (cartSoftQuantity cart) := by
  simp only [pooledCalculateSubtotal, pooledPriceOfCounts, flatPriceOfCount]
  have hp : (if cartTotalQuantity cart % 3 = 1 then cartTotalQuantity cart / 3 * 150000 + 70000
      else if cartTotalQuantity cart % 3 = 2 then cartTotalQuantity cart / 3 * 150000 + 120000
      else cartTotalQuantity cart / 3 * 150000)
      = cartTotalQuantity cart / 3 * 150000
        + (if cartTotalQuantity cart % 3 = 1 then 70000
           else if cartTotalQuantity cart % 3 = 2 then 120000 else 0) := by
    split_ifs <;> omega
  rw [hp]
  norm_cast

theorem flatPriceOfCount_succ (n : Nat) :
    flatPriceOfCount n + 30000 ≤ flatPriceOfCount (n + 1) := by
  simp only [flatPriceOfCount]
  split_ifs <;> omega

theorem softPriceOfCount_succ (n : Nat) :
    softPriceOfCount n + 10000 ≤ softPriceOfCount (n + 1) := by
  simp only [softPriceOfCount]
  split_ifs <;> omega

theorem foldl_add_eq_sum (f : CartItem → Nat) (l : List CartItem) (a : Nat) :
    l.foldl (fun t i => t + f i) a = a + (l.map f).sum := by
  induction l generalizing a with
  | nil => simp
  | cons hd tl ih =>
    rw [List.foldl_cons, ih, List.map_cons, List.sum_cons]
    omega

/-! ### Claims C1 to C5: the pricing engine -/

/-- Claim C1: in the flat-rate tiering mode the cart subtotal pools all cart
item quantities into one count `n` and returns `floor(n/3) * 150000` plus a
remainder lookup (1 contributes 70000, 2 contributes 120000, 0 contributes
0); for `n` = 0, 1, 2, 3, 4, 6 it returns exactly 0, 70000, 120000, 150000,
220000, 300000; the tax is 0 and the total equals the subtotal. -/
theorem flat_rate_pricing_spec (cart : List CartItem) (n : Nat)
    (h : cartTotalQuantity cart = n) :
    flatCalculateSubtotal cart
        = n / 3 * 150000
          + (if n % 3 = 1 then 70000 else if n % 3 = 2 then 120000 else 0)
      ∧ flatPriceOfCount 0 = 0 ∧ flatPriceOfCount 1 = 70000
      ∧ flatPriceOfCount 2 = 120000 ∧ flatPriceOfCount 3 = 150000
      ∧ flatPriceOfCount 4 = 220000 ∧ flatPriceOfCount 6 = 300000
      ∧ flatCalculateTax cart = 0
      ∧ flatCalculateTotal cart = flatCalculateSubtotal cart := by
  refine ⟨?_, by decide, by decide, by decide, by decide, by decide, by decide, rfl, rfl⟩
  rw [flatCalculateSubtotal_eq, h]
  rfl

theorem flat_rate_pricing_spec_witness :
    flatCalculateSubtotal sampleCart4
      = 4 / 3 * 150000
        + (if 4 % 3 = 1 then 70000 else if 4 % 3 = 2 then 120000 else 0) :=
  (flat_rate_pricing_spec sampleCart4 4 (by decide)).1

/-- Claim C2: in every tiering configuration implemented in the code
(flat-rate pooled, per-category split, pooled-with-discount) the price of a
count is non-negative, and adding one unit — of either population for the
two-population configurations — never decreases the price.  The first three
conjuncts anchor the count-level kernels to the cart-level subtotal
functions of the three revisions. -/
theorem tier_pricing_nonneg_monotone :
    (∀ cart, flatCalculateSubtotal cart = flatPriceOfCount (cartTotalQuantity cart))
  ∧ (∀ cart, perCatCalculateSubtotal cart
        = flatPriceOfCount (cartAlcoholQuantity cart)
          + softPriceOfCount (cartSoftQuantity cart))
  ∧ (∀ cart, pooledCalculateSubtotal cart
        = pooledPriceOfCounts (cartTotalQuantity cart) (cartSoftQuantity cart))
  ∧ (∀ n : Nat, 0 ≤ flatPriceOfCount n
      ∧ flatPriceOfCount n ≤ flatPriceOfCount (n + 1))
  ∧ (∀ a x : Nat, 0 ≤ flatPriceOfCount a + softPriceOfCount x
      ∧ flatPriceOfCount a + softPriceOfCount x
          ≤ flatPriceOfCount (a + 1) + softPriceOfCount x
      ∧ flatPriceOfCount a + softPriceOfCount x
          ≤ flatPriceOfCount a + softPriceOfCount (x + 1))
  ∧ (∀ t x : Nat, 0 ≤ pooledPriceOfCounts t x
      ∧ pooledPriceOfCounts t x ≤ pooledPriceOfCounts (t + 1) x
      ∧ pooledPriceOfCounts t x ≤ pooledPriceOfCounts (t + 1) (x + 1)) := by
  refine ⟨flatCalculateSubtotal_eq, perCatCalculateSubtotal_eq,
    pooledCalculateSubtotal_eq, ?_, ?_, ?_⟩
  · intro n
    have := flatPriceOfCount_succ n
    exact ⟨Nat.zero_le _, by omega⟩
  · intro a x
    have h1 := flatPriceOfCount_succ a
    have h2 := softPriceOfCount_succ x
    exact ⟨Nat.zero_le _, by omega, by omega⟩
  · intro t x
    have h1 := flatPriceOfCount_succ t
    have h1' : (flatPriceOfCount t : Int) + 30000 ≤ (flatPriceOfCount (t + 1) : Int) := by
      exact_mod_cast h1
    refine ⟨le_max_left 0 _, ?_, ?_⟩
    · exact max_le_max le_rfl (by omega)
    · refine max_le_max le_rfl ?_
      push_cast
      omega

/-- Claim C3: the pooled-with-discount subtotal equals the flat tier price
of the pooled drink count minus 20000 per soft-drink unit, floored at zero,
so it is never negative; a cart holding exactly one soft drink prices to
50000. -/
theorem pooled_discount_spec (cart : List CartItem) (m : MenuItem)
    (hm : m.category = "ソフトドリンク") :
    0 ≤ pooledCalculateSubtotal cart
  ∧ pooledCalculateSubtotal cart
      = max 0 ((flatPriceOfCount (cartTotalQuantity cart) : Int)
               - (cartSoftQuantity cart : Int) * 20000)
  ∧ pooledCalculateSubtotal [⟨m, 1⟩] = 50000 := by
  refine ⟨?_, pooledCalculateSubtotal_eq cart, ?_⟩
  · rw [pooledCalculateSubtotal_eq]
    exact le_max_left 0 _
  · rw [pooledCalculateSubtotal_eq]
    have h1 : cartTotalQuantity [⟨m, 1⟩] = 1 := rfl
    have h2 : cartSoftQuantity [⟨m, 1⟩] = 1 := by simp [cartSoftQuantity, hm]
    rw [h1, h2]
    decide

theorem pooled_discount_spec_witness :
    pooledCalculateSubtotal [⟨sampleSoft, 1⟩] = 50000 :=
  (pooled_discount_spec [] sampleSoft rfl).2.2

/-- Claim C4: the per-category split mode counts alcoholic and soft-drink
quantities as two separate populations, prices the alcoholic population by
the 70000 / 120000 / 150000 tier table and the soft population by the same
shape with each tier discounted 20000 per unit (50000 / 80000 / 90000), and
sums the two; a cart of 3 alcoholic drinks prices to 150000 and a cart of
3 soft drinks to 90000. -/
theorem per_category_pricing_spec (cart : List CartItem) (a x : MenuItem)
    (ha : a.category = "お酒") (hx : x.category = "ソフトドリンク") :
    perCatCalculateSubtotal cart
      = flatPriceOfCount (cartAlcoholQuantity cart)
        + softPriceOfCount (cartSoftQuantity cart)
  ∧ flatPriceOfCount 1 = 70000 ∧ flatPriceOfCount 2 = 120000
  ∧ flatPriceOfCount 3 = 150000
  ∧ softPriceOfCount 1 = 50000 ∧ softPriceOfCount 2 = 80000
  ∧ softPriceOfCount 3 = 90000
  ∧ perCatCalculateSubtotal [⟨a, 3⟩] = 150000
  ∧ perCatCalculateSubtotal [⟨x, 3⟩] = 90000 := by
  have hax : ¬ (a.category = "ソフトドリンク") := by rw [ha]; decide
  have hxa : ¬ (x.category = "お酒") := by rw [hx]; decide
  refine ⟨perCatCalculateSubtotal_eq cart, by decide, by decide, by decide,
    by decide, by decide, by decide, ?_, ?_⟩
  · rw [perCatCalculateSubtotal_eq]
    have h1 : cartAlcoholQuantity [⟨a, 3⟩] = 3 := by simp [cartAlcoholQuantity, ha]
    have h2 : cartSoftQuantity [⟨a, 3⟩] = 0 := by simp [cartSoftQuantity, hax]
    rw [h1, h2]
    decide
  · rw [perCatCalculateSubtotal_eq]
    have h1 : cartAlcoholQuantity [⟨x, 3⟩] = 0 := by simp [cartAlcoholQuantity, hxa]
    have h2 : cartSoftQuantity [⟨x, 3⟩] = 3 := by simp [cartSoftQuantity, hx]
    rw [h1, h2]
    decide

theorem per_category_pricing_spec_witness :
    perCatCalculateSubtotal [⟨sampleAlcohol, 3⟩] = 150000
  ∧ perCatCalculateSubtotal [⟨sampleSoft, 3⟩] = 90000 :=
  ⟨(per_category_pricing_spec [] sampleAlcohol sampleSoft rfl rfl).2.2.2.2.2.2.2.1,
   (per_category_pricing_spec [] sampleAlcohol sampleSoft rfl rfl).2.2.2.2.2.2.2.2⟩

/-- Claim C5: in the literal line-item mode the subtotal is the sum over
lines of unit price times quantity; the tax is the subtotal times 0.10
rounded to the nearest integer minor unit with the half boundary rounded
up; the total is subtotal plus tax. -/
theorem literal_pricing_spec (cart : List CartItem) :
    literalCalculateSubtotal cart
        = (cart.map (fun item => item.menuItem.price * item.quantity)).sum
  ∧ (literalCalculateSubtotal cart % 10 < 5 →
      literalCalculateTax cart = literalCalculateSubtotal cart / 10)
  ∧ (5 ≤ literalCalculateSubtotal cart % 10 →
      literalCalculateTax cart = literalCalculateSubtotal cart / 10 + 1)
  ∧ literalCalculateTotal cart
      = literalCalculateSubtotal cart + literalCalculateTax cart := by
  refine ⟨?_, ?_, ?_, rfl⟩
  · simpa [literalCalculateSubtotal] using
      foldl_add_eq_sum (fun item => item.menuItem.price * item.quantity) cart 0
  · intro h
    simp only [literalCalculateTax]
    omega
  · intro h
    simp only [literalCalculateTax]
    omega

theorem literal_pricing_spec_witness :
    literalCalculateTax sampleCartHalf = literalCalculateSubtotal sampleCartHalf / 10 + 1 :=
  (literal_pricing_spec sampleCartHalf).2.2.1 (by decide)

/-! ### Storage fold lemmas -/

theorem foldl_field_invariant {β γ : Type} (f : MemStorage → β → MemStorage)
    (g : MemStorage → γ) (hf : ∀ st b, g (f st b) = g st) (l : List β)
    (s : MemStorage) : g (l.foldl f s) = g s := by
  induction l generalizing s with
  | nil => rfl
  | cons hd tl ih => rw [List.foldl_cons, ih, hf]

/-! ### Claim C6: create persists the client-supplied total -/

/-- Claim C6 counterexample: the POST order route persists the client's
`totalAmount` (and per-line price) verbatim — here the request's bogus
99900000 is stored although the pricing engine prices the request's single
soft-drink line at 50000.  The claim that the server assigns the total via
the pricing engine and ignores client-supplied prices is false at create
time. -/
theorem create_order_client_total_counterexample :
    (getOrderById (postOrders initialStorage sampleBadTotalReq 0).2 1).map Order.totalAmount
        = some 99900000
  ∧ serverCalcTotalAmount initialStorage [{ menuItemId := 7, quantity := 1 }] = 50000
  ∧ (postOrders initialStorage sampleBadTotalReq 0).2.orderItems
      = [(1, { id := 1, orderId := 1, menuItemId := 7, quantity := 1, price := 55000 })]
  ∧ (99900000 : Int) ≠ 50000 :=
  ⟨by decide, by decide, by decide, by decide⟩

/-- Claim C6 (amended): for every state, create request and instant, the
POST order route persists the request's client-computed `totalAmount`
verbatim as the stored order's total; the server does not recompute the
total from the item lines at create time (recomputation happens only in
the edit path, see `update_order_with_items_replaces`). -/
theorem create_order_persists_client_total (s : MemStorage) (body : CreateOrderReq)
    (now : Nat) :
    (getOrderById (postOrders s body now).2 s.orderIdCounter).map Order.totalAmount
      = some body.totalAmount := by
  simp only [postOrders, getOrderById]
  rw [foldl_field_invariant
    (fun st (item : CreateOrderItemReq) =>
      (createOrderItem st (createOrder s body.orderNumber body.totalAmount now).1.id
        item.menuItemId item.quantity item.price).2)
    MemStorage.orders (fun _ _ => rfl)]
  cases hON : body.orderNumber with
  | some n =>
    simp only [createOrder, hON]
    rw [mapGet_mapSet_same]
    rfl
  | none =>
    simp only [createOrder, hON]
    rw [mapGet_mapSet_same]
    rfl

/-! ### Claim C9: updateOrderStatus frame conditions -/

/-- Claim C9: `updateOrderStatus` changes only the `status` and `updatedAt`
fields of the target order — its id, order number, total amount and
creation time are unchanged, every other order is unchanged, and the menu
items, order items and all counters are unchanged; when the id is absent
it returns `undefined` and the entire store state is unchanged. -/
theorem update_order_status_frame (s : MemStorage) (id : Nat)
    (status : OrderStatus) (now : Nat) :
    (getOrderById s id = none → updateOrderStatus s id status now = (none, s))
  ∧ (∀ o, getOrderById s id = some o →
      ∃ o' s', updateOrderStatus s id status now = (some o', s')
        ∧ o'.status = status ∧ o'.updatedAt = now
        ∧ o'.id = o.id ∧ o'.orderNumber = o.orderNumber
        ∧ o'.totalAmount = o.totalAmount ∧ o'.createdAt = o.createdAt
        ∧ getOrderById s' id = some o'
        ∧ (∀ k, k ≠ id → mapGet s'.orders k = mapGet s.orders k)
        ∧ s'.orderItems = s.orderItems ∧ s'.menuItems = s.menuItems
        ∧ s'.menuItemIdCounter = s.menuItemIdCounter
        ∧ s'.orderIdCounter = s.orderIdCounter
        ∧ s'.orderItemIdCounter = s.orderItemIdCounter
        ∧ s'.orderNumberCounter = s.orderNumberCounter) := by
  constructor
  · intro h
    simp only [updateOrderStatus, h]
  · intro o ho
    refine ⟨{ o with status := status, updatedAt := now },
      { s with orders := mapSet s.orders id { o with status := status, updatedAt := now } },
      ?_, rfl, rfl, rfl, rfl, rfl, rfl, ?_, ?_, rfl, rfl, rfl, rfl, rfl, rfl⟩
    · simp only [updateOrderStatus, ho]
    · exact mapGet_mapSet_same _ _ _
    · intro k hk
      exact mapGet_mapSet_ne _ _ _ _ hk

theorem update_order_status_frame_witness :
    (updateOrderStatus demoState 1 OrderStatus.ready 9).1.map Order.status
      = some OrderStatus.ready := by
  obtain ⟨o', s', heq, hst, -⟩ :=
    (update_order_status_frame demoState 1 OrderStatus.ready 9).2 demoOrder (by decide)
  rw [heq]
  simp [hst]

/-! ### Claim C10: deleteOrderItemsByOrderId frame conditions -/

/-- Claim C10: `deleteOrderItemsByOrderId` removes exactly the order item
rows whose `orderId` equals the argument, preserves every other row
together with its existing map key (item id), leaves the orders and menu
items untouched, and returns `true` unconditionally — also when nothing
matched. -/
theorem delete_order_items_by_order_id_spec (s : MemStorage) (orderId : Nat) :
    (deleteOrderItemsByOrderId s orderId).1 = true
  ∧ (deleteOrderItemsByOrderId s orderId).2.orderItems
      = s.orderItems.filter (fun p => p.2.orderId ≠ orderId)
  ∧ (∀ p ∈ s.orderItems, p.2.orderId ≠ orderId →
        p ∈ (deleteOrderItemsByOrderId s orderId).2.orderItems)
  ∧ (∀ p ∈ (deleteOrderItemsByOrderId s orderId).2.orderItems,
        p ∈ s.orderItems ∧ p.2.orderId ≠ orderId)
  ∧ (deleteOrderItemsByOrderId s orderId).2.orders = s.orders
  ∧ (deleteOrderItemsByOrderId s orderId).2.menuItems = s.menuItems := by
  refine ⟨rfl, rfl, ?_, ?_, rfl, rfl⟩
  · intro p hp hne
    simp only [deleteOrderItemsByOrderId]
    simp [List.mem_filter, hp, hne]
  · intro p hp
    simp only [deleteOrderItemsByOrderId, List.mem_filter] at hp
    refine ⟨hp.1, ?_⟩
    simpa using hp.2

theorem delete_order_items_by_order_id_spec_witness :
    (1, ({ id := 1, orderId := 1, menuItemId := 1, quantity := 2, price := 0 } : OrderItem))
      ∈ (deleteOrderItemsByOrderId demoState 2).2.orderItems :=
  (delete_order_items_by_order_id_spec demoState 2).2.2.1 _ (by decide) (by decide)

/-! ### updateOrderWithItems lemmas -/

theorem foldl_create_orders (items : List UpdateItemsEntry) (oid : Nat)
    (s : MemStorage) :
    (items.foldl
      (fun st item => (createOrderItem st oid item.menuItemId item.quantity 0).2) s).orders
      = s.orders :=
  foldl_field_invariant
    (fun st (item : UpdateItemsEntry) =>
      (createOrderItem st oid item.menuItemId item.quantity 0).2)
    MemStorage.orders (fun _ _ => rfl) items s

theorem foldl_create_orderItems (items : List UpdateItemsEntry) (oid : Nat) :
    ∀ s : MemStorage, (∀ p ∈ s.orderItems, p.1 < s.orderItemIdCounter) →
    (items.foldl
      (fun st item => (createOrderItem st oid item.menuItemId item.quantity 0).2) s).orderItems
      = s.orderItems ++ newItemsFrom s.orderItemIdCounter oid items := by
  induction items with
  | nil =>
    intro s _
    simp [newItemsFrom]
  | cons b bs ih =>
    intro s hk
    rw [List.foldl_cons]
    have hfresh : ∀ p ∈ s.orderItems, p.1 ≠ s.orderItemIdCounter :=
      fun p hp => Nat.ne_of_lt (hk p hp)
    have hset : (createOrderItem s oid b.menuItemId b.quantity 0).2.orderItems
        = s.orderItems
          ++ [(s.orderItemIdCounter,
               { id := s.orderItemIdCounter, orderId := oid, menuItemId := b.menuItemId,
                 quantity := b.quantity, price := 0 })] := by
      simpa only [createOrderItem] using
        mapSet_of_fresh s.orderItems s.orderItemIdCounter _ hfresh
    have hcnt : (createOrderItem s oid b.menuItemId b.quantity 0).2.orderItemIdCounter
        = s.orderItemIdCounter + 1 := rfl
    have hk2 : ∀ p ∈ (createOrderItem s oid b.menuItemId b.quantity 0).2.orderItems,
        p.1 < (createOrderItem s oid b.menuItemId b.quantity 0).2.orderItemIdCounter := by
      intro p hp
      rw [hset] at hp
      rw [hcnt]
      rcases List.mem_append.mp hp with h | h
      · have := hk p h
        omega
      · simp only [List.mem_singleton] at h
        subst h
        omega
    rw [ih _ hk2, hset, hcnt]
    simp [newItemsFrom, List.append_assoc]

theorem filter_deleted_none (l : List (Nat × OrderItem)) (oid : Nat) :
    ((l.filter (fun p => p.2.orderId ≠ oid)).map Prod.snd).filter
        (fun it => it.orderId = oid) = [] := by
  induction l with
  | nil => rfl
  | cons hd tl ih =>
    by_cases h : hd.2.orderId = oid
    · simp [h, ih]
    · simp [h, ih]

theorem newItemsFrom_filter (oid : Nat) (items : List UpdateItemsEntry) :
    ∀ c, ((newItemsFrom c oid items).map Prod.snd).filter (fun it => it.orderId = oid)
      = (newItemsFrom c oid items).map Prod.snd := by
  induction items with
  | nil => intro c; rfl
  | cons b bs ih =>
    intro c
    simp [newItemsFrom, ih]

theorem newItemsFrom_pairs (oid : Nat) (items : List UpdateItemsEntry) :
    ∀ c, ((newItemsFrom c oid items).map Prod.snd).map
        (fun it => (it.menuItemId, it.quantity))
      = items.map (fun b => (b.menuItemId, b.quantity)) := by
  induction items with
  | nil => intro c; rfl
  | cons b bs ih =>
    intro c
    simp [newItemsFrom, ih]

theorem updateOrderWithItems_core (s : MemStorage) (id : Nat) (num : String)
    (status : OrderStatus) (items : List UpdateItemsEntry) (now : Nat) (o : Order)
    (ho : getOrderById s id = some o) :
    ∃ joined s',
      updateOrderWithItems s id num status items now
        = (some (updatedOrderFor o num status (serverCalcTotalAmount s items) now, joined), s')
      ∧ getOrderById s' id
          = some (updatedOrderFor o num status (serverCalcTotalAmount s items) now)
      ∧ ((∀ p ∈ s.orderItems, p.1 < s.orderItemIdCounter) →
          (getOrderItemsByOrderId s' id).map (fun it => (it.menuItemId, it.quantity))
            = items.map (fun b => (b.menuItemId, b.quantity))) := by
  set u := updatedOrderFor o num status (serverCalcTotalAmount s items) now with hu
  set s1 : MemStorage := { s with orders := mapSet s.orders id u } with hs1
  set s2 := (deleteOrderItemsByOrderId s1 id).2 with hs2
  set s3 := items.foldl
    (fun st item => (createOrderItem st id item.menuItemId item.quantity 0).2) s2 with hs3
  have hrun : updateOrderWithItems s id num status items now
      = (getOrderWithItems s3 id, s3) := by
    simp only [updateOrderWithItems, ho, hs3, hs2, hs1, hu, updatedOrderFor]
  have horders3 : s3.orders = mapSet s.orders id u := by
    rw [hs3, foldl_create_orders]
    rfl
  have hget3 : getOrderById s3 id = some u := by
    simp only [getOrderById, horders3]
    exact mapGet_mapSet_same _ _ _
  have hjoin : getOrderWithItems s3 id
      = some (u, (getOrderItemsByOrderId s3 id).map
          (fun item => (item, getMenuItemById s3 item.menuItemId))) := by
    simp only [getOrderWithItems, hget3]
  refine ⟨(getOrderItemsByOrderId s3 id).map
      (fun item => (item, getMenuItemById s3 item.menuItemId)), s3, ?_, hget3, ?_⟩
  · rw [hrun, hjoin]
  · intro hk
    have hkeep : s2.orderItems = s.orderItems.filter (fun p => p.2.orderId ≠ id) := rfl
    have hcnt2 : s2.orderItemIdCounter = s.orderItemIdCounter := rfl
    have hk2 : ∀ p ∈ s2.orderItems, p.1 < s2.orderItemIdCounter := by
      intro p hp
      rw [hkeep] at hp
      rw [hcnt2]
      exact hk p (List.mem_filter.mp hp).1
    have hoi : s3.orderItems = s2.orderItems ++ newItemsFrom s2.orderItemIdCounter id items := by
      rw [hs3]
      exact foldl_create_orderItems items id s2 hk2
    simp only [getOrderItemsByOrderId, hoi, hkeep, hcnt2, List.map_append, List.filter_append]
    rw [filter_deleted_none, newItemsFrom_filter, newItemsFrom_pairs]
    simp

/-! ### Claim C7: order edit replaces items and recomputes the total -/

/-- Claim C7: for every existing order and replacement list `B`, the edit
stores exactly the rows of `B` for that order id (no residual rows of the
previous item set remain), the stored total equals the pricing engine's
price of `B` in the active (pooled-discount) mode — independent of the
previous items — and the order keeps its id.  The hypothesis `hk` states
the store invariant that item map keys stay below the id counter, which
holds in every reachable state. -/
theorem update_order_with_items_replaces (s : MemStorage) (id : Nat) (num : String)
    (status : OrderStatus) (B : List UpdateItemsEntry) (now : Nat) (o : Order)
    (ho : getOrderById s id = some o)
    (hk : ∀ p ∈ s.orderItems, p.1 < s.orderItemIdCounter) :
    ∃ o' joined s',
      updateOrderWithItems s id num status B now = (some (o', joined), s')
      ∧ o'.id = o.id
      ∧ o'.totalAmount = serverCalcTotalAmount s B
      ∧ getOrderById s' id = some o'
      ∧ (getOrderItemsByOrderId s' id).map (fun it => (it.menuItemId, it.quantity))
          = B.map (fun b => (b.menuItemId, b.quantity)) := by
  obtain ⟨joined, s', hrun, hget, hitems⟩ :=
    updateOrderWithItems_core s id num status B now o ho
  exact ⟨_, joined, s', hrun, rfl, rfl, hget, hitems hk⟩

theorem update_order_with_items_replaces_witness :
    (getOrderItemsByOrderId
        (updateOrderWithItems demoState 1 "#1001" OrderStatus.inProgress sampleB 5).2 1).map
        (fun it => (it.menuItemId, it.quantity))
      = sampleB.map (fun b => (b.menuItemId, b.quantity)) := by
  obtain ⟨o', joined, s', hrun, -, -, -, hitems⟩ :=
    update_order_with_items_replaces demoState 1 "#1001" OrderStatus.inProgress sampleB 5
      demoOrder (by decide) (by decide)
  have h2 : (updateOrderWithItems demoState 1 "#1001" OrderStatus.inProgress sampleB 5).2 = s' := by
    rw [hrun]
  rw [h2]
  exact hitems

/-! ### Claim C8: what the edit route does and does not reject -/

/-- Claim C8 counterexample: an edit whose target order is in the terminal
"ready" status and whose replacement item list is empty is accepted, not
rejected — the edit route validates only that each quantity is positive
and never consults the stored order's status, so the claim's rejection
conditions are false on the code. -/
theorem edit_ready_order_not_rejected :
    (getOrderById readyState 1).map Order.status = some OrderStatus.ready
  ∧ (patchOrder readyState 1 "#1001" OrderStatus.ready [] 7).1.isOk = true :=
  ⟨by decide, by decide⟩

/-- Claim C8 (amended): the edit route rejects with a validation error —
leaving the store unchanged — exactly those edits containing a
non-positive quantity; an edit of an absent order id reports not-found
with the store unchanged; any edit of an existing order whose quantities
are all positive succeeds, regardless of the order's status (ready orders
included) and regardless of whether the replacement list is empty. -/
theorem patch_order_validation_spec (s : MemStorage) (id : Nat) (num : String)
    (status : OrderStatus) (items : List UpdateItemsEntry) (now : Nat) :
    (¬ (∀ i ∈ items, 0 < i.quantity) →
        patchOrder s id num status items now = (EditResult.badRequest, s))
  ∧ ((∀ i ∈ items, 0 < i.quantity) → getOrderById s id = none →
        patchOrder s id num status items now = (EditResult.notFound, s))
  ∧ ((∀ i ∈ items, 0 < i.quantity) → ∀ o, getOrderById s id = some o →
        (patchOrder s id num status items now).1.isOk = true) := by
  refine ⟨?_, ?_, ?_⟩
  · intro h
    have hall : ¬ (items.all (fun i => 0 < i.quantity) = true) := by
      simpa [List.all_eq_true] using h
    simp only [patchOrder]
    rw [if_neg hall]
  · intro h hnone
    have hall : items.all (fun i => 0 < i.quantity) = true := by
      simpa [List.all_eq_true] using h
    simp only [patchOrder]
    rw [if_pos hall]
    simp only [updateOrderWithItems, hnone]
  · intro h o ho
    have hall : items.all (fun i => 0 < i.quantity) = true := by
      simpa [List.all_eq_true] using h
    obtain ⟨joined, s', hrun, -, -⟩ :=
      updateOrderWithItems_core s id num status items now o ho
    simp only [patchOrder]
    rw [if_pos hall, hrun]
    rfl

theorem patch_order_validation_spec_witness :
    patchOrder demoState 1 "#1001" OrderStatus.inProgress [⟨7, 0⟩] 5
      = (EditResult.badRequest, demoState) :=
  (patch_order_validation_spec demoState 1 "#1001" OrderStatus.inProgress [⟨7, 0⟩] 5).1
    (by decide)

end MikanOrder
